import Mathlib

/-!
Shallow embedding of the bb8-libsql connection manager (src/lib.rs,
src/errors.rs): the four connection-source configurations, the
constructors and builder mutators, and the three pooling operations
(connect / is_valid / has_broken) of each `ManageConnection` impl.
The external libsql engine is modelled by error oracles; a connection
records the trace of extension-loading events performed on it together
with its extension-loading flag.
-/

namespace BB8Libsql

/-- Model of `std::path::PathBuf`: a filesystem path as a string. -/
abbrev Path := String

/-- Model of `std::time::Duration` (an abstract duration value). -/
abbrev Duration := Nat

/-- Opaque model of `libsql::Error`: an engine error carrying its message. -/
structure LibsqlError where
  msg : String
deriving DecidableEq, Repr

/-- Model of `std::sync::mpsc::RecvError`, a unit struct. -/
structure RecvError where
deriving DecidableEq, Repr

/-- src/errors.rs lines 5-9: the unified error enum with its two variants. -/
inductive ConnectionManagerError where
  | LibsqlError (err : LibsqlError)
  | RecvError (err : RecvError)
deriving DecidableEq, Repr

/-- The possible underlying causes returned by `Error::source`. -/
inductive ErrorCause where
  | libsql (err : LibsqlError)
  | recv (err : RecvError)
deriving DecidableEq, Repr

/-- src/errors.rs lines 20-27: `Error::source` for `ConnectionManagerError`. -/
def ConnectionManagerError.source : ConnectionManagerError → Option ErrorCause
  | .LibsqlError err => some (.libsql err)
  | .RecvError err => some (.recv err)

/-- src/lib.rs lines 60-64: the `Local` connection source. -/
structure Local where
  path : Path
  extensions : Option (List Path)
deriving DecidableEq, Repr

/-- src/lib.rs lines 66-70: the `Remote` connection source. -/
structure Remote where
  url : String
  token : String
deriving DecidableEq, Repr

/-- src/lib.rs lines 72-76: the `LocalReplica` connection source. -/
structure LocalReplica where
  path : Path
  extensions : Option (List Path)
deriving DecidableEq, Repr

/-- src/lib.rs lines 78-85: the `RemoteReplica` connection source. -/
structure RemoteReplica where
  path : Path
  url : String
  token : String
  sync_interval : Option Duration
  extensions : Option (List Path)
deriving DecidableEq, Repr

/-- src/lib.rs lines 87-91: the manager wrapping one connection source. -/
structure LibsqlConnectionManager (T : Type) where
  inner : T
deriving DecidableEq, Repr

/-- src/lib.rs lines 96-103: `LibsqlConnectionManager::new_local`. -/
def LibsqlConnectionManager.new_local (path : Path) : LibsqlConnectionManager Local :=
  { inner := { path := path, extensions := none } }

/-- src/lib.rs lines 107-114: `LibsqlConnectionManager::new_remote`. -/
def LibsqlConnectionManager.new_remote (url : String) (token : String) :
    LibsqlConnectionManager Remote :=
  { inner := { url := url, token := token } }

/-- src/lib.rs lines 118-125: `LibsqlConnectionManager::new_local_replica`. -/
def LibsqlConnectionManager.new_local_replica (path : Path) :
    LibsqlConnectionManager LocalReplica :=
  { inner := { path := path, extensions := none } }

/-- src/lib.rs lines 130-140: `LibsqlConnectionManager::new_remote_replica`;
note `sync_interval` and `extensions` are initialized to `None`. -/
def LibsqlConnectionManager.new_remote_replica (path : Path) (url : String) (token : String) :
    LibsqlConnectionManager RemoteReplica :=
  { inner := { path := path, url := url, token := token,
               sync_interval := none, extensions := none } }

/-- src/lib.rs lines 144-148: the `extensions` mutator on the `Local` manager
(`&mut self`, modelled as a state transformer). -/
def LibsqlConnectionManager.extensionsLocal (self : LibsqlConnectionManager Local)
    (extensions : List Path) : LibsqlConnectionManager Local :=
  { self with inner := { self.inner with extensions := some extensions } }

/-- src/lib.rs lines 152-156: the `extensions` mutator on the `LocalReplica` manager. -/
def LibsqlConnectionManager.extensionsLocalReplica (self : LibsqlConnectionManager LocalReplica)
    (extensions : List Path) : LibsqlConnectionManager LocalReplica :=
  { self with inner := { self.inner with extensions := some extensions } }

/-- src/lib.rs lines 160-164: the `sync_interval` mutator on the `RemoteReplica` manager. -/
def LibsqlConnectionManager.syncIntervalRemoteReplica
    (self : LibsqlConnectionManager RemoteReplica) (interval : Duration) :
    LibsqlConnectionManager RemoteReplica :=
  { self with inner := { self.inner with sync_interval := some interval } }

/-- src/lib.rs lines 166-170: the `extensions` mutator on the `RemoteReplica` manager. -/
def LibsqlConnectionManager.extensionsRemoteReplica
    (self : LibsqlConnectionManager RemoteReplica) (extensions : List Path) :
    LibsqlConnectionManager RemoteReplica :=
  { self with inner := { self.inner with extensions := some extensions } }

/-- An extension-loading event performed on a connection. -/
inductive ConnEvent where
  | enableExt
  | loadExt (path : Path)
  | disableExt
deriving DecidableEq, Repr

/-- Model of `libsql::Connection` as observed by this crate: the ordered trace
of extension-loading calls made on it and its extension-loading flag. -/
structure Connection where
  trace : List ConnEvent
  extEnabled : Bool
deriving DecidableEq, Repr

/-- A connection as returned by `db.connect()`: nothing performed yet,
extension loading disabled (the engine default). -/
def freshConnection : Connection := { trace := [], extEnabled := false }

/-- Oracle for the engine's responses to the three extension-loading calls:
`none` means the call succeeds, `some e` that it fails with `e`. -/
structure ExtEnv where
  enableErr : Option LibsqlError
  loadErr : Path → Option LibsqlError
  disableErr : Option LibsqlError

/-- Oracle for one `connect()` run of a variant built with
`Builder::new_local` / `new_remote` / `new_local_replica`:
outcomes of `builder.build()` and `db.connect()`, plus the extension oracle. -/
structure ConnectEnv where
  buildErr : Option LibsqlError
  connectErr : Option LibsqlError
  ext : ExtEnv

/-- Model of `libsql::Builder` in remote-replica mode: the values handed to
`Builder::new_remote_replica` plus the optional sync-interval instruction. -/
structure BuilderRemoteReplica where
  path : Path
  url : String
  token : String
  syncInterval : Option Duration
deriving DecidableEq, Repr

/-- `libsql::Builder::new_remote_replica`: no sync-interval instruction yet. -/
def Builder.new_remote_replica (path : Path) (url : String) (token : String) :
    BuilderRemoteReplica :=
  { path := path, url := url, token := token, syncInterval := none }

/-- `libsql::Builder::sync_interval`: records the resynchronization cadence. -/
def BuilderRemoteReplica.sync_interval (b : BuilderRemoteReplica) (interval : Duration) :
    BuilderRemoteReplica :=
  { b with syncInterval := some interval }

/-- Oracle for one `connect()` run of the RemoteReplica variant; `buildErr` may
depend on the builder it is given. -/
structure ConnectEnvRR where
  buildErr : BuilderRemoteReplica → Option LibsqlError
  connectErr : Option LibsqlError
  ext : ExtEnv

/-- `conn.load_extension_enable()`: on success the flag turns on and the event
is recorded; on failure the connection is returned alongside the error. -/
def Connection.load_extension_enable (env : ExtEnv) (conn : Connection) :
    Except (LibsqlError × Connection) Connection :=
  match env.enableErr with
  | some e => .error (e, conn)
  | none => .ok { conn with trace := conn.trace ++ [ConnEvent.enableExt], extEnabled := true }

/-- `conn.load_extension(path, None)`: records the load event on success. -/
def Connection.load_extension (env : ExtEnv) (path : Path) (conn : Connection) :
    Except (LibsqlError × Connection) Connection :=
  match env.loadErr path with
  | some e => .error (e, conn)
  | none => .ok { conn with trace := conn.trace ++ [ConnEvent.loadExt path] }

/-- `conn.load_extension_disable()`: on success the flag turns off. -/
def Connection.load_extension_disable (env : ExtEnv) (conn : Connection) :
    Except (LibsqlError × Connection) Connection :=
  match env.disableErr with
  | some e => .error (e, conn)
  | none => .ok { conn with trace := conn.trace ++ [ConnEvent.disableExt], extEnabled := false }

/-- The `for path in ext { conn.load_extension(path, None)?; }` loop:
loads the paths in order, stopping at the first failure. -/
def loadExtensionsLoop (env : ExtEnv) : List Path → Connection →
    Except (LibsqlError × Connection) Connection
  | [], conn => .ok conn
  | path :: rest, conn =>
    match Connection.load_extension env path conn with
    | .error ec => .error ec
    | .ok conn2 => loadExtensionsLoop env rest conn2

/-- src/lib.rs lines 184-189 (and the identical blocks at 230-235, 260-265):
the closure run on the freshly connected connection — if no extension list is
configured, return the connection unchanged; otherwise enable extension
loading, load each path in order, then disable extension loading. -/
def extensionPhase (env : ExtEnv) (extensions : Option (List Path)) (conn : Connection) :
    Except (LibsqlError × Connection) Connection :=
  match extensions with
  | none => .ok conn
  | some ext =>
    match Connection.load_extension_enable env conn with
    | .error ec => .error ec
    | .ok conn1 =>
      match loadExtensionsLoop env ext conn1 with
      | .error ec => .error ec
      | .ok conn2 => Connection.load_extension_disable env conn2

/-- src/lib.rs lines 178-191: `connect` of the `Local` impl. The `&self`
receiver is translated as state passing: the pair's second component is the
manager as the call leaves it. A failed step maps its `libsql::Error` into
`ConnectionManagerError::LibsqlError` (the `?` conversions) and the
connection, if any, is dropped. -/
def LibsqlConnectionManager.connectLocal (self : LibsqlConnectionManager Local)
    (env : ConnectEnv) :
    (Except ConnectionManagerError Connection) × LibsqlConnectionManager Local :=
  (match env.buildErr with
   | some e => .error (ConnectionManagerError.LibsqlError e)
   | none =>
     match env.connectErr with
     | some e => .error (ConnectionManagerError.LibsqlError e)
     | none =>
       match extensionPhase env.ext self.inner.extensions freshConnection with
       | .error (e, _) => .error (ConnectionManagerError.LibsqlError e)
       | .ok conn => .ok conn,
   self)

/-- src/lib.rs lines 205-210: `connect` of the `Remote` impl (no extension phase). -/
def LibsqlConnectionManager.connectRemote (self : LibsqlConnectionManager Remote)
    (env : ConnectEnv) :
    (Except ConnectionManagerError Connection) × LibsqlConnectionManager Remote :=
  (match env.buildErr with
   | some e => .error (ConnectionManagerError.LibsqlError e)
   | none =>
     match env.connectErr with
     | some e => .error (ConnectionManagerError.LibsqlError e)
     | none => .ok freshConnection,
   self)

/-- src/lib.rs lines 224-237: `connect` of the `LocalReplica` impl. -/
def LibsqlConnectionManager.connectLocalReplica (self : LibsqlConnectionManager LocalReplica)
    (env : ConnectEnv) :
    (Except ConnectionManagerError Connection) × LibsqlConnectionManager LocalReplica :=
  (match env.buildErr with
   | some e => .error (ConnectionManagerError.LibsqlError e)
   | none =>
     match env.connectErr with
     | some e => .error (ConnectionManagerError.LibsqlError e)
     | none =>
       match extensionPhase env.ext self.inner.extensions freshConnection with
       | .error (e, _) => .error (ConnectionManagerError.LibsqlError e)
       | .ok conn => .ok conn,
   self)

/-- src/lib.rs lines 252-255: the builder constructed inside the RemoteReplica
`connect` — `Builder::new_remote_replica(path, url, token)` followed by
`builder.sync_interval(interval)` exactly when a sync interval is configured. -/
def LibsqlConnectionManager.mkBuilderRemoteReplica
    (self : LibsqlConnectionManager RemoteReplica) : BuilderRemoteReplica :=
  let builder := Builder.new_remote_replica self.inner.path self.inner.url self.inner.token
  match self.inner.sync_interval with
  | some interval => builder.sync_interval interval
  | none => builder

/-- src/lib.rs lines 251-267: `connect` of the `RemoteReplica` impl. -/
def LibsqlConnectionManager.connectRemoteReplica
    (self : LibsqlConnectionManager RemoteReplica) (env : ConnectEnvRR) :
    (Except ConnectionManagerError Connection) × LibsqlConnectionManager RemoteReplica :=
  (match env.buildErr self.mkBuilderRemoteReplica with
   | some e => .error (ConnectionManagerError.LibsqlError e)
   | none =>
     match env.connectErr with
     | some e => .error (ConnectionManagerError.LibsqlError e)
     | none =>
       match extensionPhase env.ext self.inner.extensions freshConnection with
       | .error (e, _) => .error (ConnectionManagerError.LibsqlError e)
       | .ok conn => .ok conn,
   self)

/-- Oracle for statement-batch execution on a connection: the engine's
response to a given SQL batch. -/
structure ExecEnv where
  exec : String → Option LibsqlError

/-- `conn.execute_batch(sql)` as observed through the oracle. -/
def Connection.execute_batch (env : ExecEnv) (sql : String) : Except LibsqlError Unit :=
  match env.exec sql with
  | some e => .error e
  | none => .ok ()

/-- src/lib.rs lines 193-195: `is_valid` of the `Local` impl —
`Ok(conn.execute_batch("SELECT 1;").await.map(|_| ())?)`. -/
def LibsqlConnectionManager.isValidLocal (self : LibsqlConnectionManager Local)
    (env : ExecEnv) :
    (Except ConnectionManagerError Unit) × LibsqlConnectionManager Local :=
  (((Connection.execute_batch env "SELECT 1;").map (fun _ => ())).mapError
      ConnectionManagerError.LibsqlError,
   self)

/-- src/lib.rs lines 212-214: `is_valid` of the `Remote` impl. -/
def LibsqlConnectionManager.isValidRemote (self : LibsqlConnectionManager Remote)
    (env : ExecEnv) :
    (Except ConnectionManagerError Unit) × LibsqlConnectionManager Remote :=
  (((Connection.execute_batch env "SELECT 1;").map (fun _ => ())).mapError
      ConnectionManagerError.LibsqlError,
   self)

/-- src/lib.rs lines 239-241: `is_valid` of the `LocalReplica` impl. -/
def LibsqlConnectionManager.isValidLocalReplica (self : LibsqlConnectionManager LocalReplica)
    (env : ExecEnv) :
    (Except ConnectionManagerError Unit) × LibsqlConnectionManager LocalReplica :=
  (((Connection.execute_batch env "SELECT 1;").map (fun _ => ())).mapError
      ConnectionManagerError.LibsqlError,
   self)

/-- src/lib.rs lines 269-271: `is_valid` of the `RemoteReplica` impl. -/
def LibsqlConnectionManager.isValidRemoteReplica
    (self : LibsqlConnectionManager RemoteReplica) (env : ExecEnv) :
    (Except ConnectionManagerError Unit) × LibsqlConnectionManager RemoteReplica :=
  (((Connection.execute_batch env "SELECT 1;").map (fun _ => ())).mapError
      ConnectionManagerError.LibsqlError,
   self)

/-- src/lib.rs line 197: `has_broken` of the `Local` impl — always `false`. -/
def LibsqlConnectionManager.hasBrokenLocal (self : LibsqlConnectionManager Local)
    (_ : Connection) : Bool × LibsqlConnectionManager Local :=
  (false, self)

/-- src/lib.rs line 216: `has_broken` of the `Remote` impl. -/
def LibsqlConnectionManager.hasBrokenRemote (self : LibsqlConnectionManager Remote)
    (_ : Connection) : Bool × LibsqlConnectionManager Remote :=
  (false, self)

/-- src/lib.rs line 243: `has_broken` of the `LocalReplica` impl. -/
def LibsqlConnectionManager.hasBrokenLocalReplica (self : LibsqlConnectionManager LocalReplica)
    (_ : Connection) : Bool × LibsqlConnectionManager LocalReplica :=
  (false, self)

/-- src/lib.rs line 273: `has_broken` of the `RemoteReplica` impl. -/
def LibsqlConnectionManager.hasBrokenRemoteReplica
    (self : LibsqlConnectionManager RemoteReplica) (_ : Connection) :
    Bool × LibsqlConnectionManager RemoteReplica :=
  (false, self)

/-- An engine oracle on which every call succeeds. -/
def noErrExt : ExtEnv := { enableErr := none, loadErr := fun _ => none, disableErr := none }

/-- A connect oracle on which every step succeeds. -/
def noErrConnect : ConnectEnv := { buildErr := none, connectErr := none, ext := noErrExt }

/-- A RemoteReplica connect oracle on which every step succeeds. -/
def noErrConnectRR : ConnectEnvRR :=
  { buildErr := fun _ => none, connectErr := none, ext := noErrExt }

/-- An engine oracle on which loading the extension at path "extb" fails and
every other call succeeds. -/
def failBExt : ExtEnv :=
  { enableErr := none,
    loadErr := fun q => if q = "extb" then some (LibsqlError.mk "missing") else none,
    disableErr := none }

theorem loadExtensionsLoop_ok_inv (env : ExtEnv) (ps : List Path) :
    ∀ (conn c2 : Connection), loadExtensionsLoop env ps conn = Except.ok c2 →
      c2 = { conn with trace := conn.trace ++ ps.map ConnEvent.loadExt } := by
  induction ps with
  | nil =>
    intro conn c2 h
    simp only [loadExtensionsLoop] at h
    cases h
    simp
  | cons p rest ih =>
    intro conn c2 h
    simp only [loadExtensionsLoop, Connection.load_extension] at h
    cases hp : env.loadErr p with
    | some e => rw [hp] at h; simp at h
    | none =>
      rw [hp] at h
      simp only [] at h
      have h2 := ih _ _ h
      simp [h2, List.append_assoc]

theorem loadExtensionsLoop_err (env : ExtEnv) (p : Path) (post : List Path) (e : LibsqlError)
    (hp : env.loadErr p = some e) :
    ∀ (pre : List Path) (conn : Connection), (∀ q ∈ pre, env.loadErr q = none) →
      loadExtensionsLoop env (pre ++ p :: post) conn =
        Except.error (e, { conn with trace := conn.trace ++ pre.map ConnEvent.loadExt }) := by
  intro pre
  induction pre with
  | nil =>
    intro conn _
    simp only [List.nil_append, loadExtensionsLoop, Connection.load_extension, hp]
    simp
  | cons q rest ih =>
    intro conn hpre
    have hq : env.loadErr q = none := hpre q (List.mem_cons_self q rest)
    simp only [List.cons_append, loadExtensionsLoop, Connection.load_extension, hq]
    simp only [List.append_eq]
    rw [ih _ (fun r hr => hpre r (List.mem_cons_of_mem q hr))]
    simp [List.append_assoc]

theorem extensionPhase_ok_inv (env : ExtEnv) (ext : List Path) (conn c2 : Connection)
    (h : extensionPhase env (some ext) conn = Except.ok c2) :
    c2 = { trace := conn.trace ++ ConnEvent.enableExt :: (ext.map ConnEvent.loadExt
             ++ [ConnEvent.disableExt]), extEnabled := false } := by
  simp only [extensionPhase, Connection.load_extension_enable] at h
  cases he : env.enableErr with
  | some e => rw [he] at h; simp at h
  | none =>
    rw [he] at h
    simp only [] at h
    cases hl : loadExtensionsLoop env ext
        { conn with trace := conn.trace ++ [ConnEvent.enableExt], extEnabled := true } with
    | error ec => rw [hl] at h; simp at h
    | ok cmid =>
      rw [hl] at h
      have hmid := loadExtensionsLoop_ok_inv env ext _ _ hl
      simp only [Connection.load_extension_disable] at h
      cases hd : env.disableErr with
      | some e => rw [hd] at h; simp at h
      | none =>
        rw [hd] at h
        cases h
        simp [hmid, List.append_assoc]

theorem extensionPhase_err_at_load (env : ExtEnv) (pre : List Path) (p : Path)
    (post : List Path) (e : LibsqlError) (conn : Connection)
    (henable : env.enableErr = none)
    (hpre : ∀ q ∈ pre, env.loadErr q = none) (hp : env.loadErr p = some e) :
    extensionPhase env (some (pre ++ p :: post)) conn =
      Except.error (e, Connection.mk
        (conn.trace ++ ConnEvent.enableExt :: pre.map ConnEvent.loadExt) true) := by
  simp only [extensionPhase, Connection.load_extension_enable, henable]
  rw [loadExtensionsLoop_err env p post e hp pre _ hpre]
  simp [List.append_assoc]

theorem connectLocal_ok_inv (self : LibsqlConnectionManager Local) (env : ConnectEnv)
    (c : Connection) (h : (self.connectLocal env).1 = Except.ok c) :
    extensionPhase env.ext self.inner.extensions freshConnection = Except.ok c := by
  simp only [LibsqlConnectionManager.connectLocal] at h
  cases hb : env.buildErr with
  | some e => rw [hb] at h; simp at h
  | none =>
    rw [hb] at h
    cases hc : env.connectErr with
    | some e => rw [hc] at h; simp at h
    | none =>
      rw [hc] at h
      cases hph : extensionPhase env.ext self.inner.extensions freshConnection with
      | error ec =>
        obtain ⟨eE, cE⟩ := ec
        rw [hph] at h; simp at h
      | ok c0 => rw [hph] at h; simp at h; rw [h]

theorem connectLocalReplica_ok_inv (self : LibsqlConnectionManager LocalReplica)
    (env : ConnectEnv) (c : Connection)
    (h : (self.connectLocalReplica env).1 = Except.ok c) :
    extensionPhase env.ext self.inner.extensions freshConnection = Except.ok c := by
  simp only [LibsqlConnectionManager.connectLocalReplica] at h
  cases hb : env.buildErr with
  | some e => rw [hb] at h; simp at h
  | none =>
    rw [hb] at h
    cases hc : env.connectErr with
    | some e => rw [hc] at h; simp at h
    | none =>
      rw [hc] at h
      cases hph : extensionPhase env.ext self.inner.extensions freshConnection with
      | error ec =>
        obtain ⟨eE, cE⟩ := ec
        rw [hph] at h; simp at h
      | ok c0 => rw [hph] at h; simp at h; rw [h]

theorem connectRemoteReplica_ok_inv (self : LibsqlConnectionManager RemoteReplica)
    (env : ConnectEnvRR) (c : Connection)
    (h : (self.connectRemoteReplica env).1 = Except.ok c) :
    extensionPhase env.ext self.inner.extensions freshConnection = Except.ok c := by
  simp only [LibsqlConnectionManager.connectRemoteReplica] at h
  cases hb : env.buildErr self.mkBuilderRemoteReplica with
  | some e => rw [hb] at h; simp at h
  | none =>
    rw [hb] at h
    cases hc : env.connectErr with
    | some e => rw [hc] at h; simp at h
    | none =>
      rw [hc] at h
      cases hph : extensionPhase env.ext self.inner.extensions freshConnection with
      | error ec =>
        obtain ⟨eE, cE⟩ := ec
        rw [hph] at h; simp at h
      | ok c0 => rw [hph] at h; simp at h; rw [h]

/-- C1: for every variant that supports extensions (Local, LocalReplica,
RemoteReplica), whenever an extension list is configured and `connect()`
succeeds, the returned connection carries, in order: the
enable-extension-loading event, one load event per configured path in the
exact order of the list, then the disable-extension-loading event; and the
returned connection never has extension loading still enabled. -/
theorem connect_extension_ordering
    (sL : LibsqlConnectionManager Local) (sLR : LibsqlConnectionManager LocalReplica)
    (sRR : LibsqlConnectionManager RemoteReplica)
    (envL envLR : ConnectEnv) (envRR : ConnectEnvRR)
    (extL extLR extRR : List Path) (cL cLR cRR : Connection)
    (hextL : sL.inner.extensions = some extL)
    (hokL : (sL.connectLocal envL).1 = Except.ok cL)
    (hextLR : sLR.inner.extensions = some extLR)
    (hokLR : (sLR.connectLocalReplica envLR).1 = Except.ok cLR)
    (hextRR : sRR.inner.extensions = some extRR)
    (hokRR : (sRR.connectRemoteReplica envRR).1 = Except.ok cRR) :
    (cL.extEnabled = false ∧
      cL.trace = ConnEvent.enableExt :: (extL.map ConnEvent.loadExt ++ [ConnEvent.disableExt])) ∧
    (cLR.extEnabled = false ∧
      cLR.trace = ConnEvent.enableExt :: (extLR.map ConnEvent.loadExt ++ [ConnEvent.disableExt])) ∧
    (cRR.extEnabled = false ∧
      cRR.trace = ConnEvent.enableExt :: (extRR.map ConnEvent.loadExt ++ [ConnEvent.disableExt])) := by
  have hL := connectLocal_ok_inv sL envL cL hokL
  rw [hextL] at hL
  have eqL := extensionPhase_ok_inv envL.ext extL freshConnection cL hL
  have hLR := connectLocalReplica_ok_inv sLR envLR cLR hokLR
  rw [hextLR] at hLR
  have eqLR := extensionPhase_ok_inv envLR.ext extLR freshConnection cLR hLR
  have hRR := connectRemoteReplica_ok_inv sRR envRR cRR hokRR
  rw [hextRR] at hRR
  have eqRR := extensionPhase_ok_inv envRR.ext extRR freshConnection cRR hRR
  subst eqL eqLR eqRR
  simp [freshConnection]

/-- Witness for C1 at a concrete manager of each variant: two extensions
configured, all engine calls succeeding. -/
theorem connect_extension_ordering_witness :
    ((((LibsqlConnectionManager.new_local "app.db").extensionsLocal
          ["ext1", "ext2"]).inner.extensions = some ["ext1", "ext2"]) ∧
      ((((LibsqlConnectionManager.new_local "app.db").extensionsLocal
          ["ext1", "ext2"]).connectLocal noErrConnect).1 =
        Except.ok (Connection.mk [ConnEvent.enableExt, ConnEvent.loadExt "ext1",
          ConnEvent.loadExt "ext2", ConnEvent.disableExt] false)) ∧
      ((((LibsqlConnectionManager.new_local_replica "rep.db").extensionsLocalReplica
          ["ext1", "ext2"]).inner.extensions = some ["ext1", "ext2"])) ∧
      ((((LibsqlConnectionManager.new_local_replica "rep.db").extensionsLocalReplica
          ["ext1", "ext2"]).connectLocalReplica noErrConnect).1 =
        Except.ok (Connection.mk [ConnEvent.enableExt, ConnEvent.loadExt "ext1",
          ConnEvent.loadExt "ext2", ConnEvent.disableExt] false)) ∧
      ((((LibsqlConnectionManager.new_remote_replica "sync.db" "url" "tok").extensionsRemoteReplica
          ["ext1", "ext2"]).inner.extensions = some ["ext1", "ext2"])) ∧
      ((((LibsqlConnectionManager.new_remote_replica "sync.db" "url" "tok").extensionsRemoteReplica
          ["ext1", "ext2"]).connectRemoteReplica noErrConnectRR).1 =
        Except.ok (Connection.mk [ConnEvent.enableExt, ConnEvent.loadExt "ext1",
          ConnEvent.loadExt "ext2", ConnEvent.disableExt] false))) ∧
    (((Connection.mk [ConnEvent.enableExt, ConnEvent.loadExt "ext1",
          ConnEvent.loadExt "ext2", ConnEvent.disableExt] false).extEnabled = false ∧
        (Connection.mk [ConnEvent.enableExt, ConnEvent.loadExt "ext1",
          ConnEvent.loadExt "ext2", ConnEvent.disableExt] false).trace =
          ConnEvent.enableExt :: (List.map ConnEvent.loadExt ["ext1", "ext2"] ++
            [ConnEvent.disableExt])) ∧
      ((Connection.mk [ConnEvent.enableExt, ConnEvent.loadExt "ext1",
          ConnEvent.loadExt "ext2", ConnEvent.disableExt] false).extEnabled = false ∧
        (Connection.mk [ConnEvent.enableExt, ConnEvent.loadExt "ext1",
          ConnEvent.loadExt "ext2", ConnEvent.disableExt] false).trace =
          ConnEvent.enableExt :: (List.map ConnEvent.loadExt ["ext1", "ext2"] ++
            [ConnEvent.disableExt])) ∧
      ((Connection.mk [ConnEvent.enableExt, ConnEvent.loadExt "ext1",
          ConnEvent.loadExt "ext2", ConnEvent.disableExt] false).extEnabled = false ∧
        (Connection.mk [ConnEvent.enableExt, ConnEvent.loadExt "ext1",
          ConnEvent.loadExt "ext2", ConnEvent.disableExt] false).trace =
          ConnEvent.enableExt :: (List.map ConnEvent.loadExt ["ext1", "ext2"] ++
            [ConnEvent.disableExt]))) :=
  ⟨⟨rfl, rfl, rfl, rfl, rfl, rfl⟩,
    connect_extension_ordering
      ((LibsqlConnectionManager.new_local "app.db").extensionsLocal ["ext1", "ext2"])
      ((LibsqlConnectionManager.new_local_replica "rep.db").extensionsLocalReplica
        ["ext1", "ext2"])
      ((LibsqlConnectionManager.new_remote_replica "sync.db" "url" "tok").extensionsRemoteReplica
        ["ext1", "ext2"])
      noErrConnect noErrConnect noErrConnectRR
      ["ext1", "ext2"] ["ext1", "ext2"] ["ext1", "ext2"]
      (Connection.mk [ConnEvent.enableExt, ConnEvent.loadExt "ext1",
        ConnEvent.loadExt "ext2", ConnEvent.disableExt] false)
      (Connection.mk [ConnEvent.enableExt, ConnEvent.loadExt "ext1",
        ConnEvent.loadExt "ext2", ConnEvent.disableExt] false)
      (Connection.mk [ConnEvent.enableExt, ConnEvent.loadExt "ext1",
        ConnEvent.loadExt "ext2", ConnEvent.disableExt] false)
      rfl rfl rfl rfl rfl rfl⟩

/-- C2: for every variant that supports extensions, if the build and connect
steps succeed, every extension before position i loads successfully, and the
extension at position i (the head of the configured list after prefix `pre`)
fails with `e`, then `connect()` returns an error wrapping exactly that load
failure, no connection is returned, and the extension phase performed only the
enable event followed by the loads strictly before position i — no later
extension was attempted. -/
theorem connect_extension_fail_fast
    (sL : LibsqlConnectionManager Local) (sLR : LibsqlConnectionManager LocalReplica)
    (sRR : LibsqlConnectionManager RemoteReplica)
    (ee : ExtEnv) (pre post : List Path) (p : Path) (e : LibsqlError)
    (henable : ee.enableErr = none)
    (hpre : ∀ q ∈ pre, ee.loadErr q = none)
    (hp : ee.loadErr p = some e)
    (hextL : sL.inner.extensions = some (pre ++ p :: post))
    (hextLR : sLR.inner.extensions = some (pre ++ p :: post))
    (hextRR : sRR.inner.extensions = some (pre ++ p :: post)) :
    (sL.connectLocal (ConnectEnv.mk none none ee)).1 =
        Except.error (ConnectionManagerError.LibsqlError e) ∧
    (sLR.connectLocalReplica (ConnectEnv.mk none none ee)).1 =
        Except.error (ConnectionManagerError.LibsqlError e) ∧
    (sRR.connectRemoteReplica (ConnectEnvRR.mk (fun _ => none) none ee)).1 =
        Except.error (ConnectionManagerError.LibsqlError e) ∧
    extensionPhase ee (some (pre ++ p :: post)) freshConnection =
      Except.error (e, Connection.mk
        (ConnEvent.enableExt :: pre.map ConnEvent.loadExt) true) := by
  have hph0 := extensionPhase_err_at_load ee pre p post e freshConnection henable hpre hp
  have hph : extensionPhase ee (some (pre ++ p :: post)) freshConnection =
      Except.error (e, Connection.mk
        (ConnEvent.enableExt :: pre.map ConnEvent.loadExt) true) := by
    rw [hph0]; simp [freshConnection]
  refine ⟨?_, ?_, ?_, hph⟩
  · simp only [LibsqlConnectionManager.connectLocal, hextL, hph]
  · simp only [LibsqlConnectionManager.connectLocalReplica, hextLR, hph]
  · simp only [LibsqlConnectionManager.connectRemoteReplica, hextRR, hph]

/-- Witness for C2: extensions [a, b, c] where a loads and b fails; the load
failure of b is surfaced and c is never attempted. -/
theorem connect_extension_fail_fast_witness :
    ((failBExt.enableErr = none) ∧
      (∀ q ∈ ["exta"], failBExt.loadErr q = none) ∧
      (failBExt.loadErr "extb" = some (LibsqlError.mk "missing")) ∧
      (((LibsqlConnectionManager.new_local "app.db").extensionsLocal
          ["exta", "extb", "extc"]).inner.extensions = some ["exta", "extb", "extc"]) ∧
      (((LibsqlConnectionManager.new_local_replica "rep.db").extensionsLocalReplica
          ["exta", "extb", "extc"]).inner.extensions = some ["exta", "extb", "extc"]) ∧
      (((LibsqlConnectionManager.new_remote_replica "sync.db" "url" "tok").extensionsRemoteReplica
          ["exta", "extb", "extc"]).inner.extensions = some ["exta", "extb", "extc"])) ∧
    ((((LibsqlConnectionManager.new_local "app.db").extensionsLocal
          ["exta", "extb", "extc"]).connectLocal (ConnectEnv.mk none none failBExt)).1 =
        Except.error (ConnectionManagerError.LibsqlError (LibsqlError.mk "missing")) ∧
      (((LibsqlConnectionManager.new_local_replica "rep.db").extensionsLocalReplica
          ["exta", "extb", "extc"]).connectLocalReplica
            (ConnectEnv.mk none none failBExt)).1 =
        Except.error (ConnectionManagerError.LibsqlError (LibsqlError.mk "missing")) ∧
      (((LibsqlConnectionManager.new_remote_replica "sync.db" "url" "tok").extensionsRemoteReplica
          ["exta", "extb", "extc"]).connectRemoteReplica
            (ConnectEnvRR.mk (fun _ => none) none failBExt)).1 =
        Except.error (ConnectionManagerError.LibsqlError (LibsqlError.mk "missing")) ∧
      extensionPhase failBExt (some (["exta"] ++ "extb" :: ["extc"])) freshConnection =
        Except.error (LibsqlError.mk "missing", Connection.mk
          [ConnEvent.enableExt, ConnEvent.loadExt "exta"] true)) :=
  ⟨⟨rfl, by decide, by decide, rfl, rfl, rfl⟩,
    connect_extension_fail_fast
      ((LibsqlConnectionManager.new_local "app.db").extensionsLocal ["exta", "extb", "extc"])
      ((LibsqlConnectionManager.new_local_replica "rep.db").extensionsLocalReplica
        ["exta", "extb", "extc"])
      ((LibsqlConnectionManager.new_remote_replica "sync.db" "url" "tok").extensionsRemoteReplica
        ["exta", "extb", "extc"])
      failBExt ["exta"] ["extc"] "extb" (LibsqlError.mk "missing")
      rfl (by decide) (by decide) rfl rfl rfl⟩

/-- C9: if loading a configured extension fails during `connect()`, extension
loading is not disabled on that connection before the error propagates: the
connection on the failure path still has the loading flag enabled and its
trace contains no disable event; and every extension-capable variant's
`connect()` discards that partially-configured connection, returning an error
rather than any connection. -/
theorem connect_extension_failure_leaves_enabled
    (sL : LibsqlConnectionManager Local) (sLR : LibsqlConnectionManager LocalReplica)
    (sRR : LibsqlConnectionManager RemoteReplica)
    (ee : ExtEnv) (pre post : List Path) (p : Path) (e : LibsqlError)
    (henable : ee.enableErr = none)
    (hpre : ∀ q ∈ pre, ee.loadErr q = none)
    (hp : ee.loadErr p = some e)
    (hextL : sL.inner.extensions = some (pre ++ p :: post))
    (hextLR : sLR.inner.extensions = some (pre ++ p :: post))
    (hextRR : sRR.inner.extensions = some (pre ++ p :: post)) :
    (∃ c : Connection, extensionPhase ee (some (pre ++ p :: post)) freshConnection =
        Except.error (e, c) ∧ c.extEnabled = true ∧ ConnEvent.disableExt ∉ c.trace) ∧
    (∃ err, (sL.connectLocal (ConnectEnv.mk none none ee)).1 = Except.error err) ∧
    (∃ err, (sLR.connectLocalReplica (ConnectEnv.mk none none ee)).1 = Except.error err) ∧
    (∃ err, (sRR.connectRemoteReplica
        (ConnectEnvRR.mk (fun _ => none) none ee)).1 = Except.error err) := by
  have hph0 := extensionPhase_err_at_load ee pre p post e freshConnection henable hpre hp
  have hph : extensionPhase ee (some (pre ++ p :: post)) freshConnection =
      Except.error (e, Connection.mk
        (ConnEvent.enableExt :: pre.map ConnEvent.loadExt) true) := by
    rw [hph0]; simp [freshConnection]
  refine ⟨⟨Connection.mk (ConnEvent.enableExt :: pre.map ConnEvent.loadExt) true,
      hph, rfl, ?_⟩, ?_, ?_, ?_⟩
  · simp
  · exact ⟨ConnectionManagerError.LibsqlError e,
      by simp only [LibsqlConnectionManager.connectLocal, hextL, hph]⟩
  · exact ⟨ConnectionManagerError.LibsqlError e,
      by simp only [LibsqlConnectionManager.connectLocalReplica, hextLR, hph]⟩
  · exact ⟨ConnectionManagerError.LibsqlError e,
      by simp only [LibsqlConnectionManager.connectRemoteReplica, hextRR, hph]⟩

/-- Witness for C9: extensions [a, b] with b failing to load; the failure-path
connection still has extension loading enabled, no disable was performed, and
every variant's connect returns an error. -/
theorem connect_extension_failure_leaves_enabled_witness :
    ((failBExt.enableErr = none) ∧
      (∀ q ∈ ["exta"], failBExt.loadErr q = none) ∧
      (failBExt.loadErr "extb" = some (LibsqlError.mk "missing")) ∧
      (((LibsqlConnectionManager.new_local "file.db").extensionsLocal
          ["exta", "extb"]).inner.extensions = some ["exta", "extb"]) ∧
      (((LibsqlConnectionManager.new_local_replica "filerep.db").extensionsLocalReplica
          ["exta", "extb"]).inner.extensions = some ["exta", "extb"]) ∧
      (((LibsqlConnectionManager.new_remote_replica "filesync.db" "u" "t").extensionsRemoteReplica
          ["exta", "extb"]).inner.extensions = some ["exta", "extb"])) ∧
    ((∃ c : Connection, extensionPhase failBExt (some (["exta"] ++ "extb" :: []))
          freshConnection = Except.error (LibsqlError.mk "missing", c) ∧
        c.extEnabled = true ∧ ConnEvent.disableExt ∉ c.trace) ∧
      (∃ err, (((LibsqlConnectionManager.new_local "file.db").extensionsLocal
          ["exta", "extb"]).connectLocal (ConnectEnv.mk none none failBExt)).1 =
            Except.error err) ∧
      (∃ err, (((LibsqlConnectionManager.new_local_replica "filerep.db").extensionsLocalReplica
          ["exta", "extb"]).connectLocalReplica (ConnectEnv.mk none none failBExt)).1 =
            Except.error err) ∧
      (∃ err, (((LibsqlConnectionManager.new_remote_replica
            "filesync.db" "u" "t").extensionsRemoteReplica
          ["exta", "extb"]).connectRemoteReplica
            (ConnectEnvRR.mk (fun _ => none) none failBExt)).1 = Except.error err)) :=
  ⟨⟨rfl, by decide, by decide, rfl, rfl, rfl⟩,
    connect_extension_failure_leaves_enabled
      ((LibsqlConnectionManager.new_local "file.db").extensionsLocal ["exta", "extb"])
      ((LibsqlConnectionManager.new_local_replica "filerep.db").extensionsLocalReplica
        ["exta", "extb"])
      ((LibsqlConnectionManager.new_remote_replica "filesync.db" "u" "t").extensionsRemoteReplica
        ["exta", "extb"])
      failBExt ["exta"] [] "extb" (LibsqlError.mk "missing")
      rfl (by decide) (by decide) rfl rfl rfl⟩

/-- C3: for all four variants and every connection argument, `has_broken`
returns `false` — including on a connection for which `is_valid` just failed —
and, being a total function into `Bool`, it never blocks and never itself
fails. -/
theorem has_broken_always_false
    (sL : LibsqlConnectionManager Local) (sR : LibsqlConnectionManager Remote)
    (sLR : LibsqlConnectionManager LocalReplica) (sRR : LibsqlConnectionManager RemoteReplica)
    (c1 c2 c3 c4 : Connection) (ev : ExecEnv) (err : ConnectionManagerError)
    (_hfail : (sL.isValidLocal ev).1 = Except.error err) :
    (sL.hasBrokenLocal c1).1 = false ∧ (sR.hasBrokenRemote c2).1 = false ∧
    (sLR.hasBrokenLocalReplica c3).1 = false ∧ (sRR.hasBrokenRemoteReplica c4).1 = false :=
  ⟨rfl, rfl, rfl, rfl⟩

/-- Witness for C3 at concrete managers and a connection on which `is_valid`
has just failed. -/
theorem has_broken_always_false_witness :
    (((LibsqlConnectionManager.new_local "a.db").isValidLocal
        (ExecEnv.mk (fun _ => some (LibsqlError.mk "gone")))).1 =
      Except.error (ConnectionManagerError.LibsqlError (LibsqlError.mk "gone"))) ∧
    (((LibsqlConnectionManager.new_local "a.db").hasBrokenLocal freshConnection).1 = false ∧
      ((LibsqlConnectionManager.new_remote "u" "t").hasBrokenRemote freshConnection).1 = false ∧
      ((LibsqlConnectionManager.new_local_replica "b.db").hasBrokenLocalReplica
        freshConnection).1 = false ∧
      ((LibsqlConnectionManager.new_remote_replica "c.db" "u" "t").hasBrokenRemoteReplica
        freshConnection).1 = false) :=
  ⟨rfl,
    has_broken_always_false
      (LibsqlConnectionManager.new_local "a.db") (LibsqlConnectionManager.new_remote "u" "t")
      (LibsqlConnectionManager.new_local_replica "b.db")
      (LibsqlConnectionManager.new_remote_replica "c.db" "u" "t")
      freshConnection freshConnection freshConnection freshConnection
      (ExecEnv.mk (fun _ => some (LibsqlError.mk "gone")))
      (ConnectionManagerError.LibsqlError (LibsqlError.mk "gone")) rfl⟩

/-- C4: for all four variants, `is_valid` executes the single trivial
roundtrip batch and returns `Ok` exactly when that execution succeeds; any
execution failure is wrapped into `ConnectionManagerError::LibsqlError` and
returned, never swallowed. -/
theorem is_valid_roundtrip
    (sL : LibsqlConnectionManager Local) (sR : LibsqlConnectionManager Remote)
    (sLR : LibsqlConnectionManager LocalReplica) (sRR : LibsqlConnectionManager RemoteReplica)
    (ev : ExecEnv) :
    ((sL.isValidLocal ev).1 = Except.ok () ↔ ev.exec "SELECT 1;" = none) ∧
    (∀ e, ev.exec "SELECT 1;" = some e →
      (sL.isValidLocal ev).1 = Except.error (ConnectionManagerError.LibsqlError e)) ∧
    ((sR.isValidRemote ev).1 = Except.ok () ↔ ev.exec "SELECT 1;" = none) ∧
    (∀ e, ev.exec "SELECT 1;" = some e →
      (sR.isValidRemote ev).1 = Except.error (ConnectionManagerError.LibsqlError e)) ∧
    ((sLR.isValidLocalReplica ev).1 = Except.ok () ↔ ev.exec "SELECT 1;" = none) ∧
    (∀ e, ev.exec "SELECT 1;" = some e →
      (sLR.isValidLocalReplica ev).1 = Except.error (ConnectionManagerError.LibsqlError e)) ∧
    ((sRR.isValidRemoteReplica ev).1 = Except.ok () ↔ ev.exec "SELECT 1;" = none) ∧
    (∀ e, ev.exec "SELECT 1;" = some e →
      (sRR.isValidRemoteReplica ev).1 = Except.error (ConnectionManagerError.LibsqlError e)) := by
  have hok : ∀ T (s : LibsqlConnectionManager T),
      (((Connection.execute_batch ev "SELECT 1;").map (fun _ => ())).mapError
        ConnectionManagerError.LibsqlError = Except.ok () ↔ ev.exec "SELECT 1;" = none) := by
    intro T s
    cases h : ev.exec "SELECT 1;" with
    | some e => simp [Connection.execute_batch, h, Except.map, Except.mapError]
    | none => simp [Connection.execute_batch, h, Except.map, Except.mapError]
  have herr : ∀ e, ev.exec "SELECT 1;" = some e →
      ((Connection.execute_batch ev "SELECT 1;").map (fun _ => ())).mapError
        ConnectionManagerError.LibsqlError =
          Except.error (ConnectionManagerError.LibsqlError e) := by
    intro e h
    simp [Connection.execute_batch, h, Except.map, Except.mapError]
  exact ⟨hok Local sL, fun e h => herr e h, hok Remote sR, fun e h => herr e h,
    hok LocalReplica sLR, fun e h => herr e h, hok RemoteReplica sRR, fun e h => herr e h⟩

/-- Witness for C4 at a concrete failing oracle and a concrete succeeding one. -/
theorem is_valid_roundtrip_witness :
    (((LibsqlConnectionManager.new_local "w.db").isValidLocal
        (ExecEnv.mk (fun _ => some (LibsqlError.mk "down")))).1 =
      Except.error (ConnectionManagerError.LibsqlError (LibsqlError.mk "down"))) ∧
    (((LibsqlConnectionManager.new_local "w.db").isValidLocal
        (ExecEnv.mk (fun _ => none))).1 = Except.ok ()) :=
  ⟨(is_valid_roundtrip (LibsqlConnectionManager.new_local "w.db")
      (LibsqlConnectionManager.new_remote "u" "t")
      (LibsqlConnectionManager.new_local_replica "x.db")
      (LibsqlConnectionManager.new_remote_replica "y.db" "u" "t")
      (ExecEnv.mk (fun _ => some (LibsqlError.mk "down")))).2.1
        (LibsqlError.mk "down") rfl,
    (is_valid_roundtrip (LibsqlConnectionManager.new_local "w.db")
      (LibsqlConnectionManager.new_remote "u" "t")
      (LibsqlConnectionManager.new_local_replica "x.db")
      (LibsqlConnectionManager.new_remote_replica "y.db" "u" "t")
      (ExecEnv.mk (fun _ => none))).1.mpr rfl⟩

/-- C10: the four `is_valid` implementations are extensionally equal — on any
execution oracle they produce the same result, namely the wrapped outcome of
executing exactly the batch "SELECT 1;" — so the result depends only on the
connection's engine responses, never on the variant or its configuration. -/
theorem is_valid_uniform
    (sL : LibsqlConnectionManager Local) (sR : LibsqlConnectionManager Remote)
    (sLR : LibsqlConnectionManager LocalReplica) (sRR : LibsqlConnectionManager RemoteReplica)
    (ev : ExecEnv) :
    (sL.isValidLocal ev).1 = (sR.isValidRemote ev).1 ∧
    (sR.isValidRemote ev).1 = (sLR.isValidLocalReplica ev).1 ∧
    (sLR.isValidLocalReplica ev).1 = (sRR.isValidRemoteReplica ev).1 ∧
    (sL.isValidLocal ev).1 =
      ((Connection.execute_batch ev "SELECT 1;").map (fun _ => ())).mapError
        ConnectionManagerError.LibsqlError :=
  ⟨rfl, rfl, rfl, rfl⟩

/-- C5 counterexample: the remote-replica constructor does not require a sync
interval — `new_remote_replica` takes only path, url and token, succeeds, and
the constructed manager holds `sync_interval = none`; its `connect` even
succeeds on a benign engine without any sync interval ever being supplied. -/
theorem new_remote_replica_without_sync_interval :
    (LibsqlConnectionManager.new_remote_replica "sync.db" "libsql://host" "tok").inner.sync_interval
        = none ∧
    ((LibsqlConnectionManager.new_remote_replica
        "sync.db" "libsql://host" "tok").connectRemoteReplica noErrConnectRR).1 =
      Except.ok freshConnection :=
  ⟨rfl, rfl⟩

/-- C5 amended: each constructor takes exactly its required fields — path for
the local variants, url and token for the remote variant, and path, url and
token for the remote-replica variant — and stores them; `sync_interval` is not
required by any constructor: the remote-replica constructor initializes it to
`none` (as it does the optional extension list). -/
theorem constructors_required_fields (path : Path) (url token : String) :
    LibsqlConnectionManager.new_local path =
      LibsqlConnectionManager.mk (Local.mk path none) ∧
    LibsqlConnectionManager.new_remote url token =
      LibsqlConnectionManager.mk (Remote.mk url token) ∧
    LibsqlConnectionManager.new_local_replica path =
      LibsqlConnectionManager.mk (LocalReplica.mk path none) ∧
    LibsqlConnectionManager.new_remote_replica path url token =
      LibsqlConnectionManager.mk (RemoteReplica.mk path url token none none) :=
  ⟨rfl, rfl, rfl, rfl⟩

/-- C6: the builder constructed inside the RemoteReplica `connect` carries the
sync-interval instruction exactly when one was configured — its recorded
interval equals the configured one — and the builder's identity fields are the
manager's path, url and token. -/
theorem remote_replica_builder_sync_interval (self : LibsqlConnectionManager RemoteReplica) :
    self.mkBuilderRemoteReplica.syncInterval = self.inner.sync_interval ∧
    self.mkBuilderRemoteReplica.path = self.inner.path ∧
    self.mkBuilderRemoteReplica.url = self.inner.url ∧
    self.mkBuilderRemoteReplica.token = self.inner.token := by
  cases h : self.inner.sync_interval with
  | none =>
    simp [LibsqlConnectionManager.mkBuilderRemoteReplica, Builder.new_remote_replica,
      BuilderRemoteReplica.sync_interval, h]
  | some interval =>
    simp [LibsqlConnectionManager.mkBuilderRemoteReplica, Builder.new_remote_replica,
      BuilderRemoteReplica.sync_interval, h]

/-- C7 counterexample: the `extensions` mutator, available on an
already-constructed Local manager, changes the held configuration — the
extension list goes from `none` to the supplied list. -/
theorem manager_config_mutable :
    ((LibsqlConnectionManager.new_local "app.db").extensionsLocal
        ["crypto.so"]).inner.extensions = some ["crypto.so"] ∧
    (LibsqlConnectionManager.new_local "app.db").inner.extensions = none :=
  ⟨rfl, rfl⟩

/-- C7 amended: the pooling operations `connect`, `is_valid` and `has_broken`
leave the held configuration unchanged (their shared-reference receiver is
translated as state passing and the manager they leave behind is the manager
they were given); however, the configuration is not immutable after
construction: the builder mutators `extensions` and `sync_interval`, available
on the constructed manager, do mutate it — each sets exactly its designated
field and leaves every other configuration field unchanged. -/
theorem pooling_ops_preserve_config
    (sL : LibsqlConnectionManager Local) (sR : LibsqlConnectionManager Remote)
    (sLR : LibsqlConnectionManager LocalReplica) (sRR : LibsqlConnectionManager RemoteReplica)
    (envL envR envLR : ConnectEnv) (envRR : ConnectEnvRR) (ev : ExecEnv) (c : Connection)
    (ex : List Path) (d : Duration) :
    (sL.connectLocal envL).2 = sL ∧ (sL.isValidLocal ev).2 = sL ∧
      (sL.hasBrokenLocal c).2 = sL ∧
    (sR.connectRemote envR).2 = sR ∧ (sR.isValidRemote ev).2 = sR ∧
      (sR.hasBrokenRemote c).2 = sR ∧
    (sLR.connectLocalReplica envLR).2 = sLR ∧ (sLR.isValidLocalReplica ev).2 = sLR ∧
      (sLR.hasBrokenLocalReplica c).2 = sLR ∧
    (sRR.connectRemoteReplica envRR).2 = sRR ∧ (sRR.isValidRemoteReplica ev).2 = sRR ∧
      (sRR.hasBrokenRemoteReplica c).2 = sRR ∧
    (sL.extensionsLocal ex).inner.path = sL.inner.path ∧
      (sL.extensionsLocal ex).inner.extensions = some ex ∧
    (sLR.extensionsLocalReplica ex).inner.path = sLR.inner.path ∧
      (sLR.extensionsLocalReplica ex).inner.extensions = some ex ∧
    (sRR.extensionsRemoteReplica ex).inner.path = sRR.inner.path ∧
      (sRR.extensionsRemoteReplica ex).inner.url = sRR.inner.url ∧
      (sRR.extensionsRemoteReplica ex).inner.token = sRR.inner.token ∧
      (sRR.extensionsRemoteReplica ex).inner.sync_interval = sRR.inner.sync_interval ∧
      (sRR.extensionsRemoteReplica ex).inner.extensions = some ex ∧
    (sRR.syncIntervalRemoteReplica d).inner.path = sRR.inner.path ∧
      (sRR.syncIntervalRemoteReplica d).inner.url = sRR.inner.url ∧
      (sRR.syncIntervalRemoteReplica d).inner.token = sRR.inner.token ∧
      (sRR.syncIntervalRemoteReplica d).inner.sync_interval = some d ∧
      (sRR.syncIntervalRemoteReplica d).inner.extensions = sRR.inner.extensions :=
  ⟨rfl, rfl, rfl, rfl, rfl, rfl, rfl, rfl, rfl, rfl, rfl, rfl, rfl, rfl, rfl, rfl,
    rfl, rfl, rfl, rfl, rfl, rfl, rfl, rfl, rfl, rfl⟩

/-- C8: the unified error type has exactly two kinds — `LibsqlError` wrapping
engine errors and `RecvError` wrapping internal receive errors — and every
value's `source` is present and carries the original underlying cause. -/
theorem error_two_kinds_source_present (err : ConnectionManagerError) :
    err.source.isSome = true ∧
    ((∃ e, err = ConnectionManagerError.LibsqlError e ∧
        err.source = some (ErrorCause.libsql e)) ∨
      (∃ e, err = ConnectionManagerError.RecvError e ∧
        err.source = some (ErrorCause.recv e))) := by
  cases err with
  | LibsqlError e => exact ⟨rfl, Or.inl ⟨e, rfl, rfl⟩⟩
  | RecvError e => exact ⟨rfl, Or.inr ⟨e, rfl, rfl⟩⟩

end BB8Libsql
